import Mathlib

/-!
# Verification of the ScopeIt backend (`src/my-backend/main.py`)

A shallow embedding of the FastAPI service in `main.py`: the user table,
the token login stub, the quiz classifier, the static content providers,
and the two mock-data lookup endpoints, together with the route table and
a request dispatcher.  Python dictionaries loaded from JSON are modelled
by an inductive `Json` type; Python truthiness (`if not x`) is modelled
by `Json.truthy`; handlers return an `Outcome` that is either a payload,
an `HTTPException`, or an uncaught Python exception (`pyError`).
-/

namespace ScopeIt

/-- JSON values as produced by `json.load`.  Numbers in the mock-data
file are modelled as integers (no arithmetic is ever performed on them,
they are only carried through lookups and truthiness tests). -/
inductive Json where
  | null
  | bool (b : Bool)
  | num (n : Int)
  | str (s : String)
  | arr (elems : List Json)
  | obj (fields : List (String × Json))

/-- Python truthiness of a JSON value: `None`, `False`, `0`, `""`, `[]`
and `{}` are falsy, everything else is truthy. -/
def Json.truthy : Json → Bool
  | .null => false
  | .bool b => b
  | .num n => n != 0
  | .str s => s != ""
  | .arr elems => !elems.isEmpty
  | .obj fields => !fields.isEmpty

/-- `d.get(k)` on a Python dict modelled as an association list
(`json.load` never produces duplicate keys; lookup takes the first match). -/
def dictGet (d : List (String × Json)) (k : String) : Option Json :=
  (d.find? (fun p => p.1 == k)).map Prod.snd

/-- Truthiness of the result of `d.get(k)`: Python `None` (key absent) is
falsy. -/
def truthyOpt : Option Json → Bool
  | none => false
  | some v => v.truthy

/-- Result of running a request handler: a successful payload, an
`HTTPException(status_code, detail)`, or an uncaught Python exception
(`AttributeError` / `KeyError` / `TypeError` / validation error). -/
inductive Outcome (α : Type) where
  | ok (val : α)
  | httpError (statusCode : Nat) (detail : String)
  | pyError (msg : String)

/-! ## User table and auth stub (`main.py` lines 26-69, 117-127) -/

/-- `UserInDB` (pydantic model, lines 37-43). -/
structure UserInDB where
  username : String
  email : String
  hashed_password : String
  disabled : Bool
deriving DecidableEq

/-- `users_db` (lines 26-33): the single seeded user. -/
def users_db : List (String × UserInDB) :=
  [("testuser",
    { username := "testuser"
      email := "test@example.com"
      hashed_password := "fakehashedpassword"
      disabled := false })]

/-- `get_user` (lines 45-48): dictionary lookup by username. -/
def get_user (db : List (String × UserInDB)) (username : String) : Option UserInDB :=
  (db.find? (fun p => p.1 == username)).map Prod.snd

/-- `verify_password` (lines 50-51): plain string equality. -/
def verify_password (plain_password hashed_password : String) : Bool :=
  plain_password == hashed_password

/-- `authenticate_user` (lines 53-59): returns the user on success,
`none` (Python `False`) on unknown user or wrong password. -/
def authenticate_user (db : List (String × UserInDB)) (username password : String) :
    Option UserInDB :=
  match get_user db username with
  | none => none
  | some user => if verify_password password user.hashed_password then some user else none

/-- Response body of `POST /token`. -/
structure TokenResponse where
  access_token : String
  token_type : String
deriving DecidableEq

/-- `login_for_access_token` (lines 117-127): `POST /token`. -/
def login_for_access_token (db : List (String × UserInDB)) (username password : String) :
    Outcome TokenResponse :=
  match authenticate_user db username password with
  | none => .httpError 401 "Incorrect username or password"
  | some user => .ok { access_token := user.username, token_type := "bearer" }

/-- `get_current_user` (lines 61-69): the bearer token is used directly
as a username; unknown tokens raise 401 before any handler body runs. -/
def get_current_user (db : List (String × UserInDB)) (token : String) : Outcome UserInDB :=
  match get_user db token with
  | none => .httpError 401 "Invalid authentication credentials"
  | some user => .ok user

/-! ## Quiz classifier (`main.py` lines 71-115) -/

/-- `QuizAnswer` (lines 71-73). -/
structure QuizAnswer where
  question_id : String
  answer : Int
deriving DecidableEq

/-- `QuizSubmission` (lines 75-76). -/
structure QuizSubmission where
  answers : List QuizAnswer
deriving DecidableEq

/-- `PersonalityProfile` (lines 79-82); the OCEAN dict maps trait names
to integer scores. -/
structure PersonalityProfile where
  MBTI : String
  OCEAN : List (String × Int)
  interests : List String
deriving DecidableEq

/-- `classify_personality` (lines 97-115).  Python compares the integer
count against `len(answers) / 2` under true (float) division; both sides
are exactly representable, so the comparison is modelled exactly over ℚ. -/
def classify_personality (quiz_answers : QuizSubmission) : PersonalityProfile :=
  let positive_answers :=
    (quiz_answers.answers.filter (fun q => q.answer > 3)).length
  if ((positive_answers : ℚ) > (quiz_answers.answers.length : ℚ) / 2) then
    { MBTI := "ESTJ"
      OCEAN := [("Openness", 4), ("Conscientiousness", 5), ("Extraversion", 4),
                ("Agreeableness", 3), ("Neuroticism", 2)]
      interests := ["Technology", "Leadership", "Problem Solving"] }
  else
    { MBTI := "INFP"
      OCEAN := [("Openness", 3), ("Conscientiousness", 3), ("Extraversion", 2),
                ("Agreeableness", 4), ("Neuroticism", 3)]
      interests := ["Art", "Writing", "Helping Others"] }

/-! ## Protected endpoints (`main.py` lines 134-215) -/

/-- Response body of `POST /quiz/submit` (line 138). -/
structure QuizResponse where
  message : String
  profile : PersonalityProfile
  user : String
deriving DecidableEq

/-- `submit_quiz` (lines 134-138): classify the submission after the
bearer-identity dependency succeeds. -/
def submit_quiz (db : List (String × UserInDB)) (token : String)
    (quiz_submission : QuizSubmission) : Outcome QuizResponse :=
  match get_current_user db token with
  | .httpError c d => .httpError c d
  | .pyError m => .pyError m
  | .ok current_user =>
      .ok { message := "Quiz submitted successfully"
            profile := classify_personality quiz_submission
            user := current_user.username }

/-- `CareerRecommendation` (lines 84-89); `salary` etc. are text. -/
structure CareerRecommendation where
  career : String
  required_skills : List String
  salary : String
  growth_potential : String
  future_trends : List String
deriving DecidableEq

/-- The literal recommendation list built inside
`get_career_recommendations` (lines 146-168). -/
def recommendations_literal : List CareerRecommendation :=
  [{ career := "AI Engineer"
     required_skills := ["Python", "Machine Learning", "Deep Learning", "Cloud Platforms"]
     salary := "$120,000 - $180,000"
     growth_potential := "High"
     future_trends := ["Generative AI", "Ethical AI", "AI in Healthcare"] },
   { career := "Data Scientist"
     required_skills := ["Python/R", "Statistics", "Data Visualization", "SQL"]
     salary := "$110,000 - $170,000"
     growth_potential := "High"
     future_trends := ["Big Data Analytics", "Predictive Modeling", "Data Governance"] },
   { career := "UX Designer"
     required_skills := ["UI/UX Principles", "Wireframing", "Prototyping", "User Research"]
     salary := "$80,000 - $130,000"
     growth_potential := "Medium-High"
     future_trends := ["AI in UX", "Voice User Interfaces (VUI)", "Inclusive Design"] }]

/-- Response body of `GET /careers/recommend` (line 169). -/
structure RecommendResponse where
  recommendations : List CareerRecommendation
  user : String
deriving DecidableEq

/-- `get_career_recommendations` (lines 140-169): the `profile` body
argument is bound but never used by the handler. -/
def get_career_recommendations (db : List (String × UserInDB)) (token : String)
    (profile : PersonalityProfile) : Outcome RecommendResponse :=
  match get_current_user db token with
  | .httpError c d => .httpError c d
  | .pyError m => .pyError m
  | .ok current_user =>
      .ok { recommendations := recommendations_literal, user := current_user.username }

/-- `CareerTrendItem` (lines 91-95).  The source's float score literals
(0.95 etc.) are modelled exactly as rationals; no arithmetic is ever
performed on them. -/
structure CareerTrendItem where
  trend_name : String
  summary : String
  status : String
  trend_score : ℚ
deriving DecidableEq

/-- The literal trend list built inside the first `get_career_trends`
(lines 177-202). -/
def trends_literal : List CareerTrendItem :=
  [{ trend_name := "AI Ethics Specialist"
     summary := "Growing demand for ethical considerations in AI development."
     status := "rising"
     trend_score := 0.95 },
   { trend_name := "Green Energy Consultant"
     summary := "Increasing focus on sustainable energy solutions."
     status := "rising"
     trend_score := 0.88 },
   { trend_name := "Blockchain Developer"
     summary := "Continued, but more specialized, demand in decentralized technologies."
     status := "stable"
     trend_score := 0.75 },
   { trend_name := "Traditional Retail Manager"
     summary := "Facing challenges due to e-commerce growth and automation."
     status := "falling"
     trend_score := 0.30 }]

/-- The first `get_career_trends` (lines 171-203): `GET /careers/trends`,
protected, returns the literal list (no `user` field in this response). -/
def get_career_trends (db : List (String × UserInDB)) (token : String) :
    Outcome (List CareerTrendItem) :=
  match get_current_user db token with
  | .httpError c d => .httpError c d
  | .pyError m => .pyError m
  | .ok _ => .ok trends_literal

/-- The literal scenario dict built inside `generate_simulation`
(lines 208-214). -/
def scenario_literal : Json :=
  .obj
    [("description",
      .str "You are leading a project to develop a new AI-powered recommendation system. A critical deadline is approaching, and your team is facing unexpected technical challenges."),
     ("micro_opportunities",
      .arr
        [.obj [("opportunity", .str "Delegating tasks effectively to team members."),
               ("action", .str "Delegate specific sub-tasks to optimize workflow.")],
         .obj [("opportunity", .str "Communicating with stakeholders about potential delays."),
               ("action", .str "Prepare a concise update for stakeholders outlining challenges and revised timeline.")]])]

/-- `generate_simulation` (lines 205-215): `POST /simulation/generate`,
returns `{"scenario": ..., "user": ...}`. -/
def generate_simulation (db : List (String × UserInDB)) (token : String) :
    Outcome (Json × String) :=
  match get_current_user db token with
  | .httpError c d => .httpError c d
  | .pyError m => .pyError m
  | .ok current_user => .ok (scenario_literal, current_user.username)

/-! ## Mock-data endpoints (`main.py` lines 226-296)

`combined_mock_data` is the JSON document loaded once at startup (or `{}`
if the file is absent); per the spec it is a mapping from career/persona
key to `{trends: {metric: data}, events_template: [...]}`, so it is
modelled as an association list of string keys to `Json` values and
handlers are parametrised by it. -/

/-- The insight f-string of `get_career_trends` at line 245. -/
def mkInsight (career metric : String) : String :=
  "This is a mock insight for " ++ career ++ " " ++ metric ++
    " trends. Gemini integration will fill missing data and provide real insights here later."

/-- The second `get_career_trends` (lines 235-247): `GET /api/trends`.
`if not career_data` and `if not trends_data` test Python truthiness, and
`.get` on a non-dict raises `AttributeError` (surfaced as `pyError`). -/
def get_career_trends_api (combined_mock_data : List (String × Json))
    (career metric : String) : Outcome (Json × String) :=
  match dictGet combined_mock_data career with
  | none => .httpError 404 "Career not found"
  | some career_data =>
      if !career_data.truthy then .httpError 404 "Career not found"
      else
        match career_data with
        | .obj cfields =>
            match (dictGet cfields "trends").getD (.obj []) with
            | .obj tfields =>
                match dictGet tfields metric with
                | none => .httpError 404 ("Metric " ++ metric ++ " not found for this career")
                | some trends_data =>
                    if !trends_data.truthy then
                      .httpError 404 ("Metric " ++ metric ++ " not found for this career")
                    else .ok (trends_data, mkInsight career metric)
            | _ => .pyError "AttributeError: trends value has no attribute get"
        | _ => .pyError "AttributeError: career value has no attribute get"

/-- `Event` (lines 254-260): pydantic model with string fields and
`media_url` defaulting to the empty string. -/
structure Event where
  time : String
  title : String
  description : String
  visual_prompt : String
  media_type : String
  media_url : String
deriving DecidableEq

/-- `TimelineResponse` (lines 262-265). -/
structure TimelineResponse where
  session_id : String
  person_id : String
  timeline : List Event
deriving DecidableEq

/-- Extract a required string field of an event template:
`event_template[k]` raises `KeyError` when absent, and the pydantic
`Event` model requires a string. -/
def getStrField (tmpl : List (String × Json)) (k : String) : Option String :=
  match dictGet tmpl k with
  | some (.str s) => some s
  | _ => none

/-- `event_template.get("media_url", "")` (line 281): the template's
string, or `""` when the key is absent. -/
def getMediaUrl (tmpl : List (String × Json)) : Option String :=
  match dictGet tmpl "media_url" with
  | none => some ""
  | some (.str s) => some s
  | some _ => none

/-- Build one `Event` from one template entry (lines 281-290); `none`
when the entry is not a dict with the required string fields. -/
def buildEvent (tmpl : Json) : Option Event :=
  match tmpl with
  | .obj tf => do
      let media_url ← getMediaUrl tf
      let time ← getStrField tf "time"
      let title ← getStrField tf "title"
      let description ← getStrField tf "description"
      let visual_prompt ← getStrField tf "visual_prompt"
      let media_type ← getStrField tf "media_type"
      some { time, title, description, visual_prompt, media_type, media_url }
  | _ => none

/-- The loop of `simulate_career` over the templates, in order: the first
ill-formed template aborts the request (as the Python loop raises there). -/
def buildEvents : List Json → Option (List Event)
  | [] => some []
  | t :: ts => do
      let e ← buildEvent t
      let es ← buildEvents ts
      some (e :: es)

/-- `simulate_career` (lines 267-296): `GET /simulate`.  `session_id` is
the `str(uuid.uuid4())` value generated during the request, supplied here
as a parameter.  The source's `scenario_params` argument is never read by
the handler and is omitted.  `persona.get("events_template", [])` defaults to `[]`
when the key is absent; iterating an empty string or empty dict yields
zero events, any other non-list value raises before producing a response. -/
def simulate_career (combined_mock_data : List (String × Json))
    (session_id person_id : String) : Outcome TimelineResponse :=
  match dictGet combined_mock_data person_id with
  | none => .httpError 404 "Persona not found"
  | some persona =>
      if !persona.truthy then .httpError 404 "Persona not found"
      else
        match persona with
        | .obj pfields =>
            match (dictGet pfields "events_template").getD (.arr []) with
            | .arr templates =>
                match buildEvents templates with
                | some timeline_events =>
                    .ok { session_id := session_id
                          person_id := person_id
                          timeline := timeline_events }
                | none => .pyError "KeyError or validation error in event template"
            | .str "" => .ok { session_id := session_id, person_id := person_id, timeline := [] }
            | .obj [] => .ok { session_id := session_id, person_id := person_id, timeline := [] }
            | _ => .pyError "TypeError or AttributeError iterating events_template"
        | _ => .pyError "AttributeError: persona has no attribute get"

/-! ## Route table and dispatcher

The decorators register routes on the app in source order.  Starlette's
router (which FastAPI uses) scans the registered routes in order and the
FIRST full match handles the request, as FastAPI's own documentation on
path-operation order states. -/

inductive Method where
  | get
  | post
deriving DecidableEq, Repr

/-- One registered handler per decorator, in source order. -/
inductive HandlerId where
  | login_for_access_token
  | read_root_first
  | submit_quiz
  | get_career_recommendations
  | get_career_trends
  | generate_simulation
  | get_career_trends_api
  | read_root_second
  | simulate_career
deriving DecidableEq, Repr

instance : BEq Method := ⟨fun a b => decide (a = b)⟩

/-- The routing table in registration (source) order. -/
def routes : List (Method × String × HandlerId) :=
  [(.post, "/token", .login_for_access_token),
   (.get, "/", .read_root_first),
   (.post, "/quiz/submit", .submit_quiz),
   (.get, "/careers/recommend", .get_career_recommendations),
   (.get, "/careers/trends", .get_career_trends),
   (.post, "/simulation/generate", .generate_simulation),
   (.get, "/api/trends", .get_career_trends_api),
   (.get, "/", .read_root_second),
   (.get, "/simulate", .simulate_career)]

/-- Route resolution: the first registered route whose method and path
fully match wins. -/
def resolve (method : Method) (path : String) : Option HandlerId :=
  (routes.find? (fun r => r.1 == method && r.2.1 == path)).map (fun r => r.2.2)

/-- The message of the first `read_root` (lines 129-131). -/
def read_root_first_message : String := "Welcome to Career Compass API"

/-- The message of the second `read_root` (lines 249-251). -/
def read_root_second_message : String := "Welcome to the Career Trends API"

/-- The message a `GET /` request actually receives, going through route
resolution. -/
def root_response : Option String :=
  (resolve .get "/").bind fun h =>
    match h with
    | .read_root_first => some read_root_first_message
    | .read_root_second => some read_root_second_message
    | _ => none

/-! ## Whole-service step function

The process-wide state consists of the in-memory user table and the
loaded mock JSON document.  A request carries the caller-controlled
inputs (and the uuid the environment generates for `/simulate`); the
step function dispatches to the handler and threads the state through,
so that its preservation can be stated. -/

structure ServerState where
  users_db : List (String × UserInDB)
  combined_mock_data : List (String × Json)

inductive Request where
  | token (username password : String)
  | root
  | quizSubmit (token : String) (submission : QuizSubmission)
  | careersRecommend (token : String) (profile : PersonalityProfile)
  | careersTrends (token : String)
  | simulationGenerate (token : String)
  | apiTrends (career metric : String)
  | simulate (generated_uuid person_id : String)

inductive Response where
  | tokenResp (r : TokenResponse)
  | rootResp (message : Option String)
  | quizResp (r : QuizResponse)
  | recommendResp (r : RecommendResponse)
  | trendsResp (r : List CareerTrendItem)
  | simGenResp (scenario : Json) (user : String)
  | apiTrendsResp (data : Json) (insight : String)
  | timelineResp (r : TimelineResponse)
  | httpError (statusCode : Nat) (detail : String)
  | pyError (msg : String)

/-- Inject a handler outcome into a `Response`. -/
def Outcome.toResponse {α : Type} (f : α → Response) : Outcome α → Response
  | .ok v => f v
  | .httpError c d => .httpError c d
  | .pyError m => .pyError m

/-- One request/response cycle: dispatch to the handler for the route and
return the (unchanged) process state alongside the response. -/
def handle (st : ServerState) (req : Request) : Response × ServerState :=
  (match req with
   | .token username password =>
       (login_for_access_token st.users_db username password).toResponse .tokenResp
   | .root => .rootResp root_response
   | .quizSubmit token submission =>
       (submit_quiz st.users_db token submission).toResponse .quizResp
   | .careersRecommend token profile =>
       (get_career_recommendations st.users_db token profile).toResponse .recommendResp
   | .careersTrends token =>
       (get_career_trends st.users_db token).toResponse .trendsResp
   | .simulationGenerate token =>
       (generate_simulation st.users_db token).toResponse (fun p => .simGenResp p.1 p.2)
   | .apiTrends career metric =>
       (get_career_trends_api st.combined_mock_data career metric).toResponse
         (fun p => .apiTrendsResp p.1 p.2)
   | .simulate generated_uuid person_id =>
       (simulate_career st.combined_mock_data generated_uuid person_id).toResponse
         .timelineResp,
   st)

/-! ## Helper lemmas -/

/-- The float comparison `positive_answers > len(answers) / 2` is the
integer comparison `2 * positive_answers > len(answers)`. -/
theorem half_compare (c l : ℕ) : ((c : ℚ) > (l : ℚ) / 2) ↔ 2 * c > l := by
  rw [gt_iff_lt, div_lt_iff₀ (by norm_num : (0 : ℚ) < 2)]
  constructor
  · intro h
    have h2 : (l : ℚ) < 2 * (c : ℚ) := by linarith
    exact_mod_cast h2
  · intro h
    have h2 : (l : ℚ) < 2 * (c : ℚ) := by exact_mod_cast h
    linarith

/-- Lookup in the seeded user table. -/
theorem get_user_users_db (username : String) :
    get_user users_db username =
      if username = "testuser" then
        some { username := "testuser", email := "test@example.com",
               hashed_password := "fakehashedpassword", disabled := false }
      else none := by
  by_cases h : username = "testuser"
  · subst h; rfl
  · have hb : (("testuser" : String) == username) = false :=
      beq_eq_false_iff_ne.mpr fun he => h he.symm
    simp [get_user, users_db, List.find?, hb, h]

/-! ## Claims -/

/-- C1: `classify_personality` counts answers strictly greater than 3;
when that count exceeds half the length of the answer list it returns
the fixed ESTJ profile with its OCEAN mapping and interests, otherwise
the fixed INFP profile; in particular the empty submission yields the
INFP profile. -/
theorem classify_personality_majority (sub : QuizSubmission) :
    (classify_personality sub =
      if 2 * (sub.answers.filter (fun q => q.answer > 3)).length > sub.answers.length then
        { MBTI := "ESTJ"
          OCEAN := [("Openness", 4), ("Conscientiousness", 5), ("Extraversion", 4),
                    ("Agreeableness", 3), ("Neuroticism", 2)]
          interests := ["Technology", "Leadership", "Problem Solving"] }
      else
        { MBTI := "INFP"
          OCEAN := [("Openness", 3), ("Conscientiousness", 3), ("Extraversion", 2),
                    ("Agreeableness", 4), ("Neuroticism", 3)]
          interests := ["Art", "Writing", "Helping Others"] })
    ∧ classify_personality { answers := [] } =
        { MBTI := "INFP"
          OCEAN := [("Openness", 3), ("Conscientiousness", 3), ("Extraversion", 2),
                    ("Agreeableness", 4), ("Neuroticism", 3)]
          interests := ["Art", "Writing", "Helping Others"] } := by
  constructor
  · unfold classify_personality
    by_cases h : 2 * (sub.answers.filter (fun q => q.answer > 3)).length > sub.answers.length
    · rw [if_pos ((half_compare _ _).mpr h), if_pos h]
    · rw [if_neg (fun hc => h ((half_compare _ _).mp hc)), if_neg h]
  · unfold classify_personality
    norm_num

/-- C2: `POST /token` succeeds iff the username is in the user table and
the password equals the stored `hashed_password` verbatim; on success the
access token is the username itself, and both failure modes (unknown
user, wrong password) produce the identical 401 error. -/
theorem login_for_access_token_contract (username password : String) :
    (login_for_access_token users_db username password =
        Outcome.ok { access_token := username, token_type := "bearer" }
      ↔ ∃ u, get_user users_db username = some u ∧ password = u.hashed_password)
    ∧ (∀ u, get_user users_db username = some u → password ≠ u.hashed_password →
        login_for_access_token users_db username password =
          Outcome.httpError 401 "Incorrect username or password")
    ∧ (get_user users_db username = none →
        login_for_access_token users_db username password =
          Outcome.httpError 401 "Incorrect username or password") := by
  have hg := get_user_users_db username
  by_cases hu : username = "testuser"
  · subst hu
    rw [if_pos rfl] at hg
    by_cases hp : password = "fakehashedpassword"
    · subst hp
      refine ⟨?_, ?_, ?_⟩
      · constructor
        · intro _
          exact ⟨_, hg, rfl⟩
        · intro _
          rfl
      · intro u hu hne
        rw [hg] at hu
        cases hu
        exact absurd rfl hne
      · intro hnone
        rw [hg] at hnone
        cases hnone
    · have hfail : login_for_access_token users_db "testuser" password =
          Outcome.httpError 401 "Incorrect username or password" := by
        unfold login_for_access_token authenticate_user
        rw [hg]
        have : verify_password password "fakehashedpassword" = false :=
          beq_eq_false_iff_ne.mpr hp
        simp [this]
      refine ⟨?_, fun _ _ _ => hfail, fun _ => hfail⟩
      rw [hfail]
      constructor
      · intro h
        cases h
      · rintro ⟨u, hu, hpw⟩
        rw [hg] at hu
        cases hu
        exact absurd hpw hp
  · rw [if_neg hu] at hg
    have hfail : login_for_access_token users_db username password =
        Outcome.httpError 401 "Incorrect username or password" := by
      unfold login_for_access_token authenticate_user
      rw [hg]
    refine ⟨?_, ?_, fun _ => hfail⟩
    · rw [hfail]
      constructor
      · intro h
        cases h
      · rintro ⟨u, hu, -⟩
        rw [hg] at hu
        cases hu
    · intro u hsome
      rw [hg] at hsome
      cases hsome

/-- C2 witness: a concrete unknown-user call is rejected with the same
detail as a wrong-password call, and the seeded pair succeeds. -/
theorem login_for_access_token_contract_witness :
    login_for_access_token users_db "alice" "pw" =
      Outcome.httpError 401 "Incorrect username or password" :=
  (login_for_access_token_contract "alice" "pw").2.2 (by decide)

/-- C5: when the bearer token is not a username present in the user
table, each of the four protected endpoints returns the 401 error of the
`get_current_user` dependency — for every submission and profile, so the
handler body never contributes to the response. -/
theorem protected_endpoints_unauthorized (db : List (String × UserInDB)) (token : String)
    (submission : QuizSubmission) (profile : PersonalityProfile)
    (h : get_user db token = none) :
    submit_quiz db token submission =
        Outcome.httpError 401 "Invalid authentication credentials"
    ∧ get_career_recommendations db token profile =
        Outcome.httpError 401 "Invalid authentication credentials"
    ∧ get_career_trends db token =
        Outcome.httpError 401 "Invalid authentication credentials"
    ∧ generate_simulation db token =
        Outcome.httpError 401 "Invalid authentication credentials" := by
  have hc : get_current_user db token =
      Outcome.httpError 401 "Invalid authentication credentials" := by
    unfold get_current_user
    rw [h]
  refine ⟨?_, ?_, ?_, ?_⟩ <;>
    simp [submit_quiz, get_career_recommendations, get_career_trends,
          generate_simulation, hc]

/-- C5 witness: an unknown token is rejected by all four protected
endpoints. -/
theorem protected_endpoints_unauthorized_witness :
    submit_quiz users_db "nobody" { answers := [] } =
        Outcome.httpError 401 "Invalid authentication credentials"
    ∧ get_career_recommendations users_db "nobody"
          { MBTI := "X", OCEAN := [], interests := [] } =
        Outcome.httpError 401 "Invalid authentication credentials"
    ∧ get_career_trends users_db "nobody" =
        Outcome.httpError 401 "Invalid authentication credentials"
    ∧ generate_simulation users_db "nobody" =
        Outcome.httpError 401 "Invalid authentication credentials" :=
  protected_endpoints_unauthorized users_db "nobody" { answers := [] }
    { MBTI := "X", OCEAN := [], interests := [] } (by decide)

/-- C7: the three static providers ignore every request input: any two
authenticated calls yield the same constant recommendation list, the same
constant trend list and the same constant scenario, differing at most in
the `user` field — in particular `/careers/recommend` returns the same
payload for any two `PersonalityProfile` arguments. -/
theorem static_providers_input_independent (db : List (String × UserInDB))
    (t1 t2 : String) (p1 p2 : PersonalityProfile) (u1 u2 : UserInDB)
    (h1 : get_user db t1 = some u1) (h2 : get_user db t2 = some u2) :
    (get_career_recommendations db t1 p1 =
        Outcome.ok { recommendations := recommendations_literal, user := u1.username }
      ∧ get_career_recommendations db t2 p2 =
        Outcome.ok { recommendations := recommendations_literal, user := u2.username })
    ∧ get_career_trends db t1 = get_career_trends db t2
    ∧ (generate_simulation db t1 = Outcome.ok (scenario_literal, u1.username)
      ∧ generate_simulation db t2 = Outcome.ok (scenario_literal, u2.username)) := by
  have hc1 : get_current_user db t1 = Outcome.ok u1 := by
    unfold get_current_user
    rw [h1]
  have hc2 : get_current_user db t2 = Outcome.ok u2 := by
    unfold get_current_user
    rw [h2]
  refine ⟨⟨?_, ?_⟩, ?_, ?_, ?_⟩ <;>
    simp [get_career_recommendations, get_career_trends, generate_simulation, hc1, hc2]

/-- C7 witness: two authenticated calls with different profiles. -/
theorem static_providers_input_independent_witness :
    get_career_recommendations users_db "testuser"
        { MBTI := "ESTJ", OCEAN := [], interests := [] } =
      Outcome.ok { recommendations := recommendations_literal, user := "testuser" } :=
  (static_providers_input_independent users_db "testuser" "testuser"
      { MBTI := "ESTJ", OCEAN := [], interests := [] }
      { MBTI := "INFP", OCEAN := [], interests := [] }
      { username := "testuser", email := "test@example.com",
        hashed_password := "fakehashedpassword", disabled := false }
      { username := "testuser", email := "test@example.com",
        hashed_password := "fakehashedpassword", disabled := false }
      (by decide) (by decide)).1.1

/-- C8: every request leaves the process-wide state — the user table and
the loaded mock JSON document — unchanged: the step function returns the
state it was given, for every state and every request. -/
theorem handle_preserves_state (st : ServerState) (req : Request) :
    (handle st req).2 = st := by
  cases req <;> rfl

/-- C6 counterexample: `GET /` is registered twice, but Starlette route
matching takes the FIRST full match, so the response message is the first
handler's "Welcome to Career Compass API", not the second's "Welcome to
the Career Trends API" as the claim states. -/
theorem root_route_second_wins_counterexample :
    resolve Method.get "/" = some HandlerId.read_root_first
    ∧ root_response = some "Welcome to Career Compass API"
    ∧ "Welcome to Career Compass API" ≠ "Welcome to the Career Trends API" :=
  ⟨rfl, rfl, by decide⟩

/-- C6 amended: the route `GET /` is defined twice, and the first
definition wins in the routing table (routes are matched in registration
order): every `GET /` request returns the earlier handler's message
"Welcome to Career Compass API". -/
theorem root_route_first_wins :
    routes.filter (fun r => r.1 == Method.get && r.2.1 == "/") =
      [(Method.get, "/", HandlerId.read_root_first),
       (Method.get, "/", HandlerId.read_root_second)]
    ∧ root_response = some read_root_first_message
    ∧ read_root_first_message = "Welcome to Career Compass API" :=
  ⟨rfl, rfl, rfl⟩

/-- C3 counterexample: with the mock data mapping career "x" to an empty
object, the career key IS present and the metric "m" IS absent from its
trends sub-mapping, yet `GET /api/trends` answers with the career-not-found
404, not the metric-not-found 404 the claim requires for this case. -/
theorem api_trends_contract_counterexample :
    dictGet [("x", Json.obj [])] "x" = some (Json.obj [])
    ∧ get_career_trends_api [("x", Json.obj [])] "x" "m" =
        Outcome.httpError 404 "Career not found"
    ∧ "Career not found" ≠ "Metric m not found for this career" :=
  ⟨rfl, rfl, by decide⟩

/-- C3 amended: `GET /api/trends` returns the career-not-found 404 when
the career key is absent or maps to a falsy value; when the career maps
to a truthy mapping whose "trends" entry (defaulted to an empty mapping)
is a mapping, it returns the metric-not-found 404 when the metric key is
absent or falsy there, and otherwise the stored metric data together with
the fixed career/metric-parameterised insight string. -/
theorem get_career_trends_api_contract (mock : List (String × Json)) (career metric : String) :
    (truthyOpt (dictGet mock career) = false →
       get_career_trends_api mock career metric = Outcome.httpError 404 "Career not found")
    ∧ (∀ cfields tfields,
        dictGet mock career = some (Json.obj cfields) → cfields ≠ [] →
        (dictGet cfields "trends").getD (Json.obj []) = Json.obj tfields →
        ((truthyOpt (dictGet tfields metric) = false →
            get_career_trends_api mock career metric =
              Outcome.httpError 404 ("Metric " ++ metric ++ " not found for this career"))
         ∧ (∀ d, dictGet tfields metric = some d → d.truthy = true →
             get_career_trends_api mock career metric =
               Outcome.ok (d, mkInsight career metric)))) := by
  constructor
  · intro hf
    unfold get_career_trends_api
    cases hd : dictGet mock career with
    | none => rfl
    | some v =>
        rw [hd] at hf
        simp only [truthyOpt] at hf
        simp [hf]
  · intro cfields tfields hc hne ht
    have htr : (Json.obj cfields).truthy = true := by
      cases cfields with
      | nil => exact absurd rfl hne
      | cons a as => rfl
    constructor
    · intro hf
      unfold get_career_trends_api
      rw [hc]
      simp only [htr, Bool.not_true, Bool.false_eq_true, if_false]
      rw [ht]
      cases hm : dictGet tfields metric with
      | none => simp [hm]
      | some d =>
          rw [hm] at hf
          simp only [truthyOpt] at hf
          simp [hm, hf]
    · intro d hm hd
      unfold get_career_trends_api
      rw [hc]
      simp only [htr, Bool.not_true, Bool.false_eq_true, if_false]
      rw [ht]
      simp [hm, hd]

/-- C3 amended witness: a seeded career/metric pair returns the stored
data and the insight string; an unseeded career returns the 404. -/
theorem get_career_trends_api_contract_witness :
    get_career_trends_api [("c", Json.obj [("trends", Json.obj [("m", Json.num 7)])])]
        "c" "m" =
      Outcome.ok (Json.num 7, mkInsight "c" "m") :=
  ((get_career_trends_api_contract
      [("c", Json.obj [("trends", Json.obj [("m", Json.num 7)])])] "c" "m").2
    [("trends", Json.obj [("m", Json.num 7)])] [("m", Json.num 7)]
    rfl (List.cons_ne_nil _ _) rfl).2 (Json.num 7) rfl rfl

/-- C9: `GET /api/trends` decides not-found by truthiness, not key
presence: a career key present but mapped to a falsy value yields the
career-not-found 404, and a metric key present in the trends sub-mapping
but mapped to a falsy value yields the metric-not-found 404. -/
theorem api_trends_truthiness (mock : List (String × Json)) (career metric : String) :
    (∀ v, dictGet mock career = some v → v.truthy = false →
       get_career_trends_api mock career metric = Outcome.httpError 404 "Career not found")
    ∧ (∀ cfields tfields d,
        dictGet mock career = some (Json.obj cfields) → cfields ≠ [] →
        (dictGet cfields "trends").getD (Json.obj []) = Json.obj tfields →
        dictGet tfields metric = some d → d.truthy = false →
        get_career_trends_api mock career metric =
          Outcome.httpError 404 ("Metric " ++ metric ++ " not found for this career")) := by
  constructor
  · intro v hv hf
    unfold get_career_trends_api
    rw [hv]
    simp [hf]
  · intro cfields tfields d hc hne ht hm hd
    have htr : (Json.obj cfields).truthy = true := by
      cases cfields with
      | nil => exact absurd rfl hne
      | cons a as => rfl
    unfold get_career_trends_api
    rw [hc]
    simp only [htr, Bool.not_true, Bool.false_eq_true, if_false]
    rw [ht]
    simp [hm, hd]

/-- C9 witness: a career key mapped to an empty object 404s as
career-not-found, and a present-but-zero metric 404s as
metric-not-found. -/
theorem api_trends_truthiness_witness :
    get_career_trends_api [("x", Json.obj [])] "x" "growth" =
        Outcome.httpError 404 "Career not found"
    ∧ get_career_trends_api [("c", Json.obj [("trends", Json.obj [("m", Json.num 0)])])]
          "c" "m" =
        Outcome.httpError 404 "Metric m not found for this career" :=
  ⟨(api_trends_truthiness [("x", Json.obj [])] "x" "growth").1 (Json.obj []) rfl rfl,
   (api_trends_truthiness [("c", Json.obj [("trends", Json.obj [("m", Json.num 0)])])]
       "c" "m").2
     [("trends", Json.obj [("m", Json.num 0)])] [("m", Json.num 0)] (Json.num 0)
     rfl (List.cons_ne_nil _ _) rfl rfl rfl⟩

/-- The loop of `simulate_career` produces exactly one event per
template entry. -/
theorem buildEvents_length (ts : List Json) : ∀ es, buildEvents ts = some es →
    es.length = ts.length := by
  induction ts with
  | nil =>
      intro es h
      cases h
      rfl
  | cons t ts ih =>
      intro es h
      simp only [buildEvents, Option.bind_eq_bind, Option.bind_eq_some,
        Option.some.injEq] at h
      obtain ⟨e, -, es', hes', hcons⟩ := h
      subst hcons
      simp [ih es' hes']

/-- C4 counterexample: with the mock data mapping person "p" to `null`,
the `person_id` key IS present, yet `GET /simulate` answers 404 instead
of returning a `TimelineResponse` as the claim's "otherwise" branch
requires. -/
theorem simulate_career_contract_counterexample :
    dictGet [("p", Json.null)] "p" = some Json.null
    ∧ simulate_career [("p", Json.null)] "sid" "p" =
        Outcome.httpError 404 "Persona not found" :=
  ⟨rfl, rfl⟩

/-- C4 amended: `GET /simulate` returns 404 when the `person_id` key is
absent or maps to a falsy value; when it maps to a truthy persona mapping
whose event-template list builds cleanly, the endpoint returns a
`TimelineResponse` carrying the generated session identifier, the given
`person_id`, and exactly one `Event` per template entry; each `Event`
copies the template's time, title, description, visual prompt and media
type, with `media_url` defaulted to the empty string when the template
omits it. -/
theorem simulate_career_contract (mock : List (String × Json)) (sid pid : String) :
    (truthyOpt (dictGet mock pid) = false →
       simulate_career mock sid pid = Outcome.httpError 404 "Persona not found")
    ∧ (∀ pfields templates events,
        dictGet mock pid = some (Json.obj pfields) → pfields ≠ [] →
        (dictGet pfields "events_template").getD (Json.arr []) = Json.arr templates →
        buildEvents templates = some events →
        simulate_career mock sid pid =
            Outcome.ok { session_id := sid, person_id := pid, timeline := events }
          ∧ events.length = templates.length)
    ∧ (∀ tf t ti d vp mt,
        getStrField tf "time" = some t → getStrField tf "title" = some ti →
        getStrField tf "description" = some d → getStrField tf "visual_prompt" = some vp →
        getStrField tf "media_type" = some mt → dictGet tf "media_url" = none →
        buildEvent (Json.obj tf) =
          some { time := t, title := ti, description := d, visual_prompt := vp,
                 media_type := mt, media_url := "" }) := by
  refine ⟨?_, ?_, ?_⟩
  · intro hf
    unfold simulate_career
    cases hd : dictGet mock pid with
    | none => rfl
    | some v =>
        rw [hd] at hf
        simp only [truthyOpt] at hf
        simp [hf]
  · intro pfields templates events hp hne ht hb
    have htr : (Json.obj pfields).truthy = true := by
      cases pfields with
      | nil => exact absurd rfl hne
      | cons a as => rfl
    refine ⟨?_, buildEvents_length templates events hb⟩
    unfold simulate_career
    rw [hp]
    simp only [htr, Bool.not_true, Bool.false_eq_true, if_false]
    rw [ht]
    simp [hb]
  · intro tf t ti d vp mt h1 h2 h3 h4 h5 h6
    unfold buildEvent getMediaUrl
    simp [h1, h2, h3, h4, h5, h6]

/-- C4 amended witness: a seeded persona with one template lacking a
media URL yields one event whose `media_url` is the empty string. -/
theorem simulate_career_contract_witness :
    simulate_career
        [("p", Json.obj [("events_template", Json.arr
            [Json.obj [("time", Json.str "2030"), ("title", Json.str "T"),
                       ("description", Json.str "D"), ("visual_prompt", Json.str "V"),
                       ("media_type", Json.str "image")]])])]
        "sid-1" "p" =
      Outcome.ok { session_id := "sid-1", person_id := "p",
                   timeline := [{ time := "2030", title := "T", description := "D",
                                  visual_prompt := "V", media_type := "image",
                                  media_url := "" }] } :=
  ((simulate_career_contract
      [("p", Json.obj [("events_template", Json.arr
          [Json.obj [("time", Json.str "2030"), ("title", Json.str "T"),
                     ("description", Json.str "D"), ("visual_prompt", Json.str "V"),
                     ("media_type", Json.str "image")]])])]
      "sid-1" "p").2.1
    [("events_template", Json.arr
        [Json.obj [("time", Json.str "2030"), ("title", Json.str "T"),
                   ("description", Json.str "D"), ("visual_prompt", Json.str "V"),
                   ("media_type", Json.str "image")]])]
    [Json.obj [("time", Json.str "2030"), ("title", Json.str "T"),
               ("description", Json.str "D"), ("visual_prompt", Json.str "V"),
               ("media_type", Json.str "image")]]
    [{ time := "2030", title := "T", description := "D", visual_prompt := "V",
       media_type := "image", media_url := "" }]
    rfl (List.cons_ne_nil _ _) rfl rfl).1

/-- C10: a present, truthy persona mapping with no "events_template" key
does not error: the loop runs over the default empty list and the
endpoint returns a timeline of zero events. -/
theorem simulate_career_no_templates (mock : List (String × Json)) (sid pid : String)
    (pfields : List (String × Json))
    (hp : dictGet mock pid = some (Json.obj pfields)) (hne : pfields ≠ [])
    (hno : dictGet pfields "events_template" = none) :
    simulate_career mock sid pid =
      Outcome.ok { session_id := sid, person_id := pid, timeline := [] } := by
  have htr : (Json.obj pfields).truthy = true := by
    cases pfields with
    | nil => exact absurd rfl hne
    | cons a as => rfl
  unfold simulate_career
  rw [hp]
  simp only [htr, Bool.not_true, Bool.false_eq_true, if_false]
  rw [hno]
  rfl

/-- C10 witness: a persona record without "events_template" yields an
empty timeline. -/
theorem simulate_career_no_templates_witness :
    simulate_career [("p", Json.obj [("name", Json.str "Ada")])] "sid-2" "p" =
      Outcome.ok { session_id := "sid-2", person_id := "p", timeline := [] } :=
  simulate_career_no_templates [("p", Json.obj [("name", Json.str "Ada")])] "sid-2" "p"
    [("name", Json.str "Ada")] rfl (List.cons_ne_nil _ _) rfl

end ScopeIt
